import Mathlib

/-!
Verification development for the WhisperWatch classroom noise monitor.

The definitions below are a shallow embedding of the TypeScript sources:
the threshold classifier and smoothing filter from
`src/components/NoiseMeter.tsx` (two variants), the audio level
estimators from the `useAudioLevel` hook variants
(`src/hooks/useAudioLevel.tsx`, `src/unnamed/part_002`,
`src/unnamed/part_003`, `src/unnamed/part_004`), and the session
lifecycle (`startListening` / `stopListening`) as explicit state
machines.  Levels and thresholds are modelled as rationals; estimator
arithmetic, which uses square roots, is modelled over the reals.
Byte buffers (`Uint8Array`) are modelled as `List ℕ`.
-/

/-- The `thresholds` prop of `NoiseMeter.tsx`: three ordered numeric
boundaries `{moderate, loud, excessive}`. -/
structure ThresholdSet where
  moderate : ℚ
  loud : ℚ
  excessive : ℚ
deriving DecidableEq

/-- The validity invariant on thresholds from the spec:
`0 ≤ moderate < loud < excessive ≤ 100`. -/
def validThresholds (t : ThresholdSet) : Prop :=
  0 ≤ t.moderate ∧ t.moderate < t.loud ∧ t.loud < t.excessive ∧ t.excessive ≤ 100

/-- The five discrete noise-category labels returned by `getNoiseLabel`
in `NoiseMeter.tsx` (Too Loud! / Very Noisy / Moderate / Quiet / Silent). -/
inductive NoiseCategory where
  | silent
  | quiet
  | moderate
  | loud
  | excessive
deriving DecidableEq

/-- `getNoiseLabel` from `NoiseMeter.tsx` (identical in both variants,
lines 96-102 and 297-304):
`if (level >= thresholds.excessive) return 'Too Loud!';`
`if (level >= thresholds.loud) return 'Very Noisy';`
`if (level >= thresholds.moderate) return 'Moderate';`
`if (level > 5) return 'Quiet';`
`return 'Silent';` -/
def getNoiseLabel (thresholds : ThresholdSet) (level : ℚ) : NoiseCategory :=
  if thresholds.excessive ≤ level then .excessive
  else if thresholds.loud ≤ level then .loud
  else if thresholds.moderate ≤ level then .moderate
  else if 5 < level then .quiet
  else .silent

/-- The set of levels inside `[0,100]` that the classifier maps to a
given category. -/
def categoryRange (thresholds : ThresholdSet) (c : NoiseCategory) : Set ℚ :=
  {l | 0 ≤ l ∧ l ≤ 100 ∧ getNoiseLabel thresholds l = c}

namespace NoiseMeterA

/-- `animateToNewLevel` from the first `NoiseMeter.tsx` variant
(lines 21-33): `speed = 0.9`,
`significance = Math.abs(prev - level) > 10 ? 10.0 : 5.0`,
snap when `Math.abs(prev - level) < 0.5`, otherwise
`prev + (level - prev) * speed * significance`. -/
def animateToNewLevel (level prev : ℚ) : ℚ :=
  let speed : ℚ := 0.9
  let significance : ℚ := if 10 < |prev - level| then 10 else 5
  if |prev - level| < 0.5 then level
  else prev + (level - prev) * speed * significance

end NoiseMeterA

namespace NoiseMeterB

/-- `animateToNewLevel` from the second `NoiseMeter.tsx` variant
(lines 254-264): `speed = level > prev ? 0.5 : 0.2`,
`significance = Math.abs(prev - level) > 15 ? 1.5 : 1`,
snap when `Math.abs(prev - level) < 0.5`, otherwise
`prev + (level - prev) * speed * significance`. -/
def animateToNewLevel (level prev : ℚ) : ℚ :=
  let speed : ℚ := if prev < level then 0.5 else 0.2
  let significance : ℚ := if 15 < |prev - level| then 1.5 else 1
  if |prev - level| < 0.5 then level
  else prev + (level - prev) * speed * significance

end NoiseMeterB

/-!
Estimator building blocks shared verbatim by the `updateAudioLevel`
loops of `part_002`, `part_003` and `part_004`.  Each is an index
loop over a `Uint8Array`, modelled as a sum over `Finset.range` with
`List.getD`.
-/

/-- The RMS loop of `updateAudioLevel` (part_002 lines 152-159,
part_003 lines 103-109 and 398-405, part_004 lines 146-151):
`amplitude = data[i] - 128; sumSquares += amplitude * amplitude`,
then `Math.sqrt(sumSquares / data.length)`. -/
noncomputable def rmsDeviation (timeDomainData : List ℕ) : ℝ :=
  Real.sqrt ((∑ i in Finset.range timeDomainData.length,
    ((timeDomainData.getD i 0 : ℝ) - 128)^2) / timeDomainData.length)

/-- The per-bin weight of the speech-band weighted frequency average
(part_002 lines 166-178, part_003 lines 412-424):
`frequency = (i / frequencyData.length) * nyquist` with
`nyquist = sampleRate / 2`; weight is `speechWeight` (2.0 in part_002,
2.5 in part_003's enhanced variant) when `300 < frequency < 3000`,
else 1. -/
noncomputable def binWeight (speechWeight sampleRate : ℝ) (binCount i : ℕ) : ℝ :=
  if 300 < ((i : ℝ) / binCount) * (sampleRate / 2) ∧
     ((i : ℝ) / binCount) * (sampleRate / 2) < 3000
  then speechWeight else 1

/-- The speech-weighted frequency average
(`freqAverage = totalEnergy > 0 ? weightedSum / totalEnergy : 0`,
part_002 line 180, part_003 line 426). -/
noncomputable def weightedFreqAverage (speechWeight sampleRate : ℝ)
    (frequencyData : List ℕ) : ℝ :=
  if 0 < ∑ i in Finset.range frequencyData.length,
      binWeight speechWeight sampleRate frequencyData.length i
  then (∑ i in Finset.range frequencyData.length,
      (frequencyData.getD i 0 : ℝ) *
        binWeight speechWeight sampleRate frequencyData.length i) /
    (∑ i in Finset.range frequencyData.length,
      binWeight speechWeight sampleRate frequencyData.length i)
  else 0

/-- The plain frequency average
(`frequencyData.reduce((sum, v) => sum + v, 0) / frequencyData.length`,
part_003 line 112, part_004 line 154). -/
noncomputable def plainFreqAverage (frequencyData : List ℕ) : ℝ :=
  (∑ i in Finset.range frequencyData.length, (frequencyData.getD i 0 : ℝ)) /
    frequencyData.length

/-- `Math.max(...Array.from(frequencyData))` (part_002 line 183,
part_003 line 429, part_004 line 158), the peak frequency-bin value. -/
def maxFrequency (frequencyData : List ℕ) : ℕ :=
  frequencyData.foldr max 0

/-- The audio constraint object passed to `getUserMedia`. -/
structure AudioConstraints where
  echoCancellation : Bool
  noiseSuppression : Bool
  autoGainControl : Bool
deriving DecidableEq

namespace Part002

/-- `sensitivityMultiplier` of `src/unnamed/part_002` (line 26). -/
def sensitivityMultiplier : ℝ := 400

/-- The `getUserMedia` constraints of part_002 (lines 85-91): all three
capture-processing options disabled. -/
def audioConstraints : AudioConstraints :=
  { echoCancellation := false, noiseSuppression := false, autoGainControl := false }

/-- `combinedVolume = (rms * 0.6) + (freqAverage * 0.3) + (maxFrequency * 0.1)`
(part_002 line 189). -/
def combinedVolume (rms freqAverage maxFrequency : ℝ) : ℝ :=
  rms * 0.6 + freqAverage * 0.3 + maxFrequency * 0.1

/-- `normalizedVolume = Math.min(100, Math.max(0, combinedVolume * (sensitivityMultiplier / 128)))`
(part_002 line 192). -/
noncomputable def normalizedVolume (combinedVolume : ℝ) : ℝ :=
  min 100 (max 0 (combinedVolume * (sensitivityMultiplier / 128)))

/-- One frame of the part_002 `updateAudioLevel` loop (lines 137-218):
the raw level published by `setAudioLevel` for given time-domain and
frequency buffers. -/
noncomputable def updateAudioLevel (sampleRate : ℝ)
    (timeDomainData frequencyData : List ℕ) : ℝ :=
  normalizedVolume (combinedVolume (rmsDeviation timeDomainData)
    (weightedFreqAverage 2 sampleRate frequencyData)
    (maxFrequency frequencyData))

end Part002

namespace Part003A

/-- `sensitivityMultiplier` of the first `useAudioLevel` variant in
`src/unnamed/part_003` (line 24). -/
def sensitivityMultiplier : ℝ := 200

/-- The `getUserMedia` constraints of part_003's first variant
(lines 54-60): all three capture-processing options disabled. -/
def audioConstraints : AudioConstraints :=
  { echoCancellation := false, noiseSuppression := false, autoGainControl := false }

/-- `combinedVolume = (rmsVolume * 0.7) + (avgFrequency * 0.3)`
(part_003 line 115).  Note: only two signals; the frequency peak is
computed in this variant solely for debug logging (lines 131-133) and
does not enter the metric. -/
def combinedVolume (rmsVolume avgFrequency : ℝ) : ℝ :=
  rmsVolume * 0.7 + avgFrequency * 0.3

/-- `adjustedVolume = Math.min(100, Math.max(0, combinedVolume * sensitivityMultiplier))`
(part_003 line 118). -/
noncomputable def adjustedVolume (combinedVolume : ℝ) : ℝ :=
  min 100 (max 0 (combinedVolume * sensitivityMultiplier))

/-- One frame of the first part_003 `updateAudioLevel` loop
(lines 90-142): the raw level published by `setAudioLevel`. -/
noncomputable def updateAudioLevel (timeDomainData frequencyData : List ℕ) : ℝ :=
  adjustedVolume (combinedVolume (rmsDeviation timeDomainData)
    (plainFreqAverage frequencyData))

end Part003A

namespace Part003B

/-- `sensitivityMultiplier` of the second `useAudioLevel` variant in
`src/unnamed/part_003` (line 238). -/
def sensitivityMultiplier : ℝ := 500

/-- The `getUserMedia` constraints of part_003's second variant
(lines 332-338): all three capture-processing options ENABLED. -/
def audioConstraints : AudioConstraints :=
  { echoCancellation := true, noiseSuppression := true, autoGainControl := true }

/-- `combinedVolume = (rms * 0.4) + (freqAverage * 0.5) + (maxFrequency * 0.1)`
(part_003 line 432). -/
def combinedVolume (rms freqAverage maxFrequency : ℝ) : ℝ :=
  rms * 0.4 + freqAverage * 0.5 + maxFrequency * 0.1

/-- `normalizedVolume = Math.min(100, Math.max(0, combinedVolume * (sensitivityMultiplier / 128)))`
(part_003 line 435). -/
noncomputable def normalizedVolume (combinedVolume : ℝ) : ℝ :=
  min 100 (max 0 (combinedVolume * (sensitivityMultiplier / 128)))

/-- `finalVolume = normalizedVolume < 5 && normalizedVolume > 0 ? normalizedVolume * 1.5 : normalizedVolume`
(part_003 lines 439-441): the post-clamp quiet-sound boost. -/
noncomputable def finalVolume (normalizedVolume : ℝ) : ℝ :=
  if normalizedVolume < 5 ∧ 0 < normalizedVolume
  then normalizedVolume * 1.5 else normalizedVolume

/-- One frame of the second part_003 `updateAudioLevel` loop
(lines 384-467): the raw level published by `setAudioLevel`. -/
noncomputable def updateAudioLevel (sampleRate : ℝ)
    (timeDomainData frequencyData : List ℕ) : ℝ :=
  finalVolume (normalizedVolume (combinedVolume (rmsDeviation timeDomainData)
    (weightedFreqAverage 2.5 sampleRate frequencyData)
    (maxFrequency frequencyData)))

end Part003B

namespace Part004

/-- `sensitivityMultiplier` of `src/unnamed/part_004` (line 26). -/
def sensitivityMultiplier : ℝ := 300

/-- The `getUserMedia` constraints of part_004 (lines 85-90): all three
capture-processing options disabled. -/
def audioConstraints : AudioConstraints :=
  { echoCancellation := false, noiseSuppression := false, autoGainControl := false }

/-- `combinedVolume = (rmsVolume * 0.5) + (avgFrequency * 0.3) + (peakFrequency * 0.2)`
(part_004 line 161). -/
def combinedVolume (rmsVolume avgFrequency peakFrequency : ℝ) : ℝ :=
  rmsVolume * 0.5 + avgFrequency * 0.3 + peakFrequency * 0.2

/-- `adjustedVolume = Math.min(100, Math.max(0, combinedVolume * sensitivityMultiplier))`
(part_004 line 164). -/
noncomputable def adjustedVolume (combinedVolume : ℝ) : ℝ :=
  min 100 (max 0 (combinedVolume * sensitivityMultiplier))

/-- One frame of the part_004 `updateAudioLevel` loop (lines 136-189):
the raw level published by `setAudioLevel`. -/
noncomputable def updateAudioLevel (timeDomainData frequencyData : List ℕ) : ℝ :=
  adjustedVolume (combinedVolume (rmsDeviation timeDomainData)
    (plainFreqAverage frequencyData)
    (maxFrequency frequencyData))

end Part004

namespace HookV1

/-- The `getUserMedia` request of the first `useAudioLevel.tsx` variant
(line 33) passes `{ audio: true }`: no processing constraints
(`none` models the absent constraint object). -/
def audioConstraints : Option AudioConstraints := none

/-- `normalizedLevel = Math.min(100, Math.max(0, Math.round((average / 255) * 100)))`
(useAudioLevel.tsx line 55). -/
noncomputable def normalizedLevel (average : ℝ) : ℝ :=
  min 100 (max 0 ((round (average / 255 * 100) : ℤ) : ℝ))

/-- The mutable state of the first `useAudioLevel.tsx` variant
(lines 13-18): `audioLevel`, `isListening`, and the three nullable
audio objects held in React state.  `streams` additionally records the
platform side: every stream this hook ever acquired via `getUserMedia`,
in order, `true` while its tracks are live.  The hook itself stores no
reference to the stream (line 33 keeps it only in a local variable), so
no field of the hook points into `streams`. -/
structure State where
  audioLevel : ℚ
  isListening : Bool
  audioContext : Option Unit
  analyser : Option Unit
  microphone : Option Unit
  streams : List Bool
deriving DecidableEq

/-- The initial hook state (lines 14-18): level 0, not listening, no
audio objects, nothing acquired. -/
def initState : State :=
  { audioLevel := 0, isListening := false,
    audioContext := none, analyser := none, microphone := none,
    streams := [] }

/-- The success path of `startListening` in the first
`useAudioLevel.tsx` variant (lines 22-64): acquire a stream via
`getUserMedia` (its tracks become live; the hook keeps no reference to
it), create the context, source and analyser, store them in React
state, and set `isListening`. -/
def startListening (s : State) : State :=
  { s with
    streams := s.streams ++ [true],
    audioContext := some (),
    analyser := some (),
    microphone := some (),
    isListening := true }

/-- `stopListening` of the first `useAudioLevel.tsx` variant
(lines 77-90): guarded by `if (microphone && audioContext)`; when both
are present it stops listening, disconnects the source, closes the
context, nulls the refs and resets the level; otherwise it does
nothing.  Note what is absent from lines 77-90: there is no
`track.stop()` call (so `streams` is left untouched — closing the
`AudioContext` does not release the microphone tracks) and no
`cancelAnimationFrame` call. -/
def stopListening (s : State) : State :=
  if s.microphone.isSome && s.audioContext.isSome then
    { audioLevel := 0, isListening := false,
      audioContext := none, analyser := none, microphone := none,
      streams := s.streams }
  else s

end HookV1

namespace HookRef

/-- The `getUserMedia` request of the ref-based `useAudioLevel.tsx`
variant (line 147) passes `{ audio: true }`: no processing
constraints. -/
def audioConstraints : Option AudioConstraints := none

/-- `normalizedLevel = Math.min(100, Math.max(0, Math.round(Math.sqrt(average / 255) * 100)))`
(useAudioLevel.tsx lines 182-185), the square-root response curve. -/
noncomputable def normalizedLevel (average : ℝ) : ℝ :=
  min 100 (max 0 ((round (Real.sqrt (average / 255) * 100) : ℤ) : ℝ))

/-- The mutable state of the ref-based `useAudioLevel.tsx` variant
(lines 116-127).  `streams` records every stream ever acquired in
order, `true` while its tracks are live; `streamRef` is the index held
by `streamRef.current`.  `pendingFrames` models the platform's queue of
scheduled animation-frame callbacks, `animationFrameRef` the id held in
`animationFrameRef.current`, and `nextFrameId` the platform's fresh id
counter. -/
structure State where
  audioLevel : ℚ
  isListening : Bool
  audioContext : Option Unit
  analyserConnected : Bool
  micConnected : Bool
  streams : List Bool
  streamRef : Option ℕ
  animationFrameRef : Option ℕ
  pendingFrames : List ℕ
  nextFrameId : ℕ
deriving DecidableEq

/-- The initial hook state: level 0, not listening, all refs null. -/
def initState : State :=
  { audioLevel := 0, isListening := false, audioContext := none,
    analyserConnected := false, micConnected := false, streams := [],
    streamRef := none, animationFrameRef := none, pendingFrames := [],
    nextFrameId := 0 }

/-- The success path of `startListening` in the ref-based
`useAudioLevel.tsx` variant (lines 130-196): create the context if
absent, acquire a NEW stream (no `isListening` guard), store it in
`streamRef`, connect source and analyser, set `isListening`, and
schedule the first animation frame. -/
def startListening (s : State) : State :=
  { s with
    audioContext := some (),
    streams := s.streams ++ [true],
    streamRef := some s.streams.length,
    analyserConnected := true,
    micConnected := true,
    isListening := true,
    animationFrameRef := some s.nextFrameId,
    pendingFrames := s.pendingFrames ++ [s.nextFrameId],
    nextFrameId := s.nextFrameId + 1 }

/-- `stopListening` of the ref-based `useAudioLevel.tsx` variant
(lines 213-244): cancel the scheduled frame held in
`animationFrameRef`, disconnect the microphone, stop all tracks of the
stream held in `streamRef`, close the context, null the refs, and reset
`isListening` and `audioLevel`. -/
def stopListening (s : State) : State :=
  { s with
    animationFrameRef := none,
    pendingFrames := match s.animationFrameRef with
      | some fid => s.pendingFrames.erase fid
      | none => s.pendingFrames,
    micConnected := false,
    streams := match s.streamRef with
      | some i => s.streams.set i false
      | none => s.streams,
    streamRef := none,
    audioContext := none,
    analyserConnected := false,
    isListening := false,
    audioLevel := 0 }

end HookRef

/-- Permission states of the hook variants that track them
(part_002 line 15, part_004 line 15). -/
inductive PermState where
  | unknown
  | prompt
  | granted
  | denied
deriving DecidableEq

namespace HookPart002

/-- Audio-context state for part_002, whose `stopListening` suspends
rather than closes the context (lines 266-270). -/
inductive CtxState where
  | running
  | suspended
deriving DecidableEq

/-- The mutable state of the `useAudioLevel` hook in
`src/unnamed/part_002` (lines 13-23).  `streams` records every stream
ever acquired in order, `true` while its tracks are live; `streamRef`
is the index held in `streamRef.current`.  `pendingFrames` models the
platform's queue of scheduled animation-frame callbacks,
`animationFrameRef` the id held in `animationFrameRef.current`, and
`nextFrameId` the platform's fresh id counter. -/
structure State where
  audioLevel : ℚ
  isListening : Bool
  permissionState : PermState
  audioContext : Option CtxState
  analyserConnected : Bool
  micConnected : Bool
  streams : List Bool
  streamRef : Option ℕ
  animationFrameRef : Option ℕ
  pendingFrames : List ℕ
  nextFrameId : ℕ
deriving DecidableEq

/-- The initial hook state (lines 13-23): level 0, not listening,
permission unknown, all refs null. -/
def initState : State :=
  { audioLevel := 0, isListening := false, permissionState := .unknown,
    audioContext := none, analyserConnected := false, micConnected := false,
    streams := [], streamRef := none, animationFrameRef := none,
    pendingFrames := [], nextFrameId := 0 }

/-- The granted path of `startListening` in part_002 (lines 55-239):
create or resume the context, acquire a NEW stream via `getUserMedia`
(there is no `isListening` guard), set `permissionState` to granted,
store the stream in `streamRef`, connect source and analyser, set
`isListening`, and schedule the first animation frame. -/
def startListening (s : State) : State :=
  { s with
    audioContext := some .running,
    permissionState := .granted,
    streams := s.streams ++ [true],
    streamRef := some s.streams.length,
    analyserConnected := true,
    micConnected := true,
    isListening := true,
    animationFrameRef := some s.nextFrameId,
    pendingFrames := s.pendingFrames ++ [s.nextFrameId],
    nextFrameId := s.nextFrameId + 1 }

/-- `stopListening` of part_002 (lines 242-280): cancel the scheduled
frame held in `animationFrameRef`, disconnect the microphone, stop all
tracks of the stream held in `streamRef`, suspend the context (kept for
quick restart), null the refs, and reset `isListening` and
`audioLevel`. -/
def stopListening (s : State) : State :=
  { s with
    animationFrameRef := none,
    pendingFrames := match s.animationFrameRef with
      | some fid => s.pendingFrames.erase fid
      | none => s.pendingFrames,
    micConnected := false,
    streams := match s.streamRef with
      | some i => s.streams.set i false
      | none => s.streams,
    streamRef := none,
    audioContext := s.audioContext.map (fun _ => CtxState.suspended),
    analyserConnected := false,
    isListening := false,
    audioLevel := 0 }

end HookPart002

/-!
Helper lemmas about the estimator building blocks on the constant
buffers used by the endpoint properties.
-/

lemma getD_replicate (n a i : ℕ) (h : i < n) :
    (List.replicate n a).getD i 0 = a := by
  simp [List.getD, List.getElem?_replicate, h]

lemma rmsDeviation_replicate (n a : ℕ) (hn : 0 < n) :
    rmsDeviation (List.replicate n a) = Real.sqrt (((a : ℝ) - 128)^2) := by
  unfold rmsDeviation
  rw [List.length_replicate]
  have hs : ∑ i in Finset.range n, (((List.replicate n a).getD i 0 : ℝ) - 128)^2
      = n * (((a : ℝ) - 128)^2) := by
    rw [Finset.sum_congr rfl (fun i hi => by
      rw [getD_replicate n a i (Finset.mem_range.mp hi)]), Finset.sum_const,
      Finset.card_range, nsmul_eq_mul]
  have hn' : (n : ℝ) ≠ 0 := Nat.cast_ne_zero.mpr hn.ne'
  rw [hs, mul_div_cancel_left₀ _ hn']

lemma rmsDeviation_allMid (n : ℕ) (hn : 0 < n) :
    rmsDeviation (List.replicate n 128) = 0 := by
  rw [rmsDeviation_replicate n 128 hn]
  norm_num

lemma rmsDeviation_allZero (n : ℕ) (hn : 0 < n) :
    rmsDeviation (List.replicate n 0) = 128 := by
  rw [rmsDeviation_replicate n 0 hn]
  rw [show ((0:ℕ):ℝ) - 128 = -128 by norm_num]
  rw [show ((-128:ℝ))^2 = 128^2 by ring, Real.sqrt_sq (by norm_num)]

lemma binWeight_pos (w sampleRate : ℝ) (hw : 1 ≤ w) (n i : ℕ) :
    0 < binWeight w sampleRate n i := by
  unfold binWeight
  split_ifs <;> linarith

lemma weightedFreqAverage_replicate (w sampleRate : ℝ) (hw : 1 ≤ w) (n a : ℕ)
    (hn : 0 < n) :
    weightedFreqAverage w sampleRate (List.replicate n a) = a := by
  unfold weightedFreqAverage
  rw [List.length_replicate]
  have hpos : 0 < ∑ i in Finset.range n, binWeight w sampleRate n i :=
    Finset.sum_pos (fun i _ => binWeight_pos w sampleRate hw n i)
      (Finset.nonempty_range_iff.mpr hn.ne')
  rw [if_pos hpos]
  have hws : ∑ i in Finset.range n,
      ((List.replicate n a).getD i 0 : ℝ) * binWeight w sampleRate n i
      = a * ∑ i in Finset.range n, binWeight w sampleRate n i := by
    rw [Finset.mul_sum]
    exact Finset.sum_congr rfl (fun i hi => by
      rw [getD_replicate n a i (Finset.mem_range.mp hi)])
  rw [hws, mul_div_assoc, div_self (ne_of_gt hpos), mul_one]

lemma plainFreqAverage_replicate (n a : ℕ) (hn : 0 < n) :
    plainFreqAverage (List.replicate n a) = a := by
  unfold plainFreqAverage
  rw [List.length_replicate]
  have hs : ∑ i in Finset.range n, ((List.replicate n a).getD i 0 : ℝ)
      = n * (a : ℝ) := by
    rw [Finset.sum_congr rfl (fun i hi => by
      rw [getD_replicate n a i (Finset.mem_range.mp hi)]), Finset.sum_const,
      Finset.card_range, nsmul_eq_mul]
  have hn' : (n : ℝ) ≠ 0 := Nat.cast_ne_zero.mpr hn.ne'
  rw [hs, mul_div_cancel_left₀ _ hn']

lemma maxFrequency_replicate (n a : ℕ) (h : 0 < n) :
    maxFrequency (List.replicate n a) = a := by
  unfold maxFrequency
  induction n with
  | zero => omega
  | succ m ih =>
    cases Nat.eq_zero_or_pos m with
    | inl hm => subst hm; simp
    | inr hm => rw [List.replicate_succ, List.foldr_cons, ih hm, max_self]

lemma clamp_bounds (x : ℝ) : 0 ≤ min 100 (max 0 x) ∧ min 100 (max 0 x) ≤ 100 :=
  ⟨le_min (by norm_num) (le_max_left 0 x), min_le_left 100 (max 0 x)⟩

lemma getD_set_false (l : List Bool) (i j : ℕ) :
    (l.set j false).getD i false = true → l.getD i false = true ∧ i ≠ j := by
  induction l generalizing i j with
  | nil => intro h; simp [List.getD] at h
  | cons a t ih =>
    intro h
    cases j with
    | zero =>
      cases i with
      | zero => simp [List.getD] at h
      | succ i' =>
        rw [List.set_cons_zero, List.getD_cons_succ] at h
        exact ⟨by rw [List.getD_cons_succ]; exact h, Nat.succ_ne_zero i'⟩
    | succ j' =>
      cases i with
      | zero =>
        rw [List.set_cons_succ, List.getD_cons_zero] at h
        exact ⟨by rw [List.getD_cons_zero]; exact h, (Nat.succ_ne_zero j').symm⟩
      | succ i' =>
        rw [List.set_cons_succ, List.getD_cons_succ] at h
        obtain ⟨h1, h2⟩ := ih i' j' h
        exact ⟨by rw [List.getD_cons_succ]; exact h1, fun hc => h2 (Nat.succ_injective hc)⟩

/-- Claim C1: for every valid `ThresholdSet` and every level in
`[0,100]`, the classifier `getNoiseLabel` returns exactly one of the
five categories, and the five category ranges partition `[0,100]` with
no gap (some range contains the level) and no overlap (that range is
unique). -/
theorem C1_classifier_partition :
    ∀ t : ThresholdSet, validThresholds t → ∀ level : ℚ, 0 ≤ level → level ≤ 100 →
      (∃! c : NoiseCategory, getNoiseLabel t level = c) ∧
      (∃! c : NoiseCategory, level ∈ categoryRange t c) := by
  intro t _ level h0 h1
  constructor
  · exact ⟨getNoiseLabel t level, rfl, fun c hc => hc.symm⟩
  · refine ⟨getNoiseLabel t level, ⟨h0, h1, rfl⟩, ?_⟩
    rintro c ⟨-, -, hc⟩
    exact hc.symm

/-- Witness for C1 at thresholds `{30, 60, 85}` and level 42. -/
theorem C1_witness :
    (validThresholds ⟨30, 60, 85⟩ ∧ (0:ℚ) ≤ 42 ∧ (42:ℚ) ≤ 100) ∧
    ((∃! c : NoiseCategory, getNoiseLabel ⟨30, 60, 85⟩ 42 = c) ∧
      (∃! c : NoiseCategory, (42:ℚ) ∈ categoryRange ⟨30, 60, 85⟩ c)) :=
  ⟨⟨by norm_num [validThresholds], by norm_num, by norm_num⟩,
    C1_classifier_partition ⟨30, 60, 85⟩ (by norm_num [validThresholds]) 42
      (by norm_num) (by norm_num)⟩

/-- Counterexample for C2: with the valid thresholds `{30, 60, 85}`,
the classifier maps level 5 to `silent`, not `quiet` — the code reads
`if (level > 5) return 'Quiet'; return 'Silent';` so the boundary 5 is
silent. -/
theorem C2_counterexample :
    validThresholds ⟨30, 60, 85⟩ ∧
    getNoiseLabel ⟨30, 60, 85⟩ 5 = NoiseCategory.silent ∧
    getNoiseLabel ⟨30, 60, 85⟩ 5 ≠ NoiseCategory.quiet :=
  ⟨by norm_num [validThresholds], by decide, by decide⟩

/-- Claim C2 (amended): for valid thresholds with `moderate > 5`, the
quiet range is the OPEN interval `5 < level < moderate` (the boundary 5
itself is silent), and exactly the levels at or below 5 are silent. -/
theorem C2_quiet_range_amended :
    ∀ t : ThresholdSet, validThresholds t → 5 < t.moderate →
    ∀ level : ℚ,
      (getNoiseLabel t level = NoiseCategory.quiet ↔
        5 < level ∧ level < t.moderate) ∧
      (getNoiseLabel t level = NoiseCategory.silent ↔ level ≤ 5) := by
  intro t hv h5 level
  obtain ⟨h0, h1, h2, h3⟩ := hv
  unfold getNoiseLabel
  split_ifs with ha hb hc hd
  · exact ⟨iff_of_false (by decide) (fun h => by linarith [h.2]),
      iff_of_false (by decide) (fun h => by linarith)⟩
  · exact ⟨iff_of_false (by decide) (fun h => by linarith [h.2]),
      iff_of_false (by decide) (fun h => by linarith)⟩
  · exact ⟨iff_of_false (by decide) (fun h => by linarith [h.2]),
      iff_of_false (by decide) (fun h => by linarith)⟩
  · exact ⟨iff_of_true rfl ⟨hd, by linarith [not_le.mp hc]⟩,
      iff_of_false (by decide) (fun h => by linarith)⟩
  · exact ⟨iff_of_false (by decide) (fun h => by linarith [h.1]),
      iff_of_true rfl (not_lt.mp hd)⟩

/-- Witness for the amended C2 at thresholds `{30, 60, 85}` and
level 6. -/
theorem C2_witness :
    (validThresholds ⟨30, 60, 85⟩ ∧ (5:ℚ) < 30) ∧
    ((getNoiseLabel ⟨30, 60, 85⟩ 6 = NoiseCategory.quiet ↔
        5 < (6:ℚ) ∧ (6:ℚ) < 30) ∧
      (getNoiseLabel ⟨30, 60, 85⟩ 6 = NoiseCategory.silent ↔ (6:ℚ) ≤ 5)) :=
  ⟨⟨by norm_num [validThresholds], by norm_num⟩,
    C2_quiet_range_amended ⟨30, 60, 85⟩ (by norm_num [validThresholds])
      (by norm_num) 6⟩

/-- Counterexample for C7: the first `NoiseMeter.tsx` smoothing variant
multiplies the delta by `speed * significance = 0.9 * 10 = 9` on a
large jump; one step from `current = 0` toward `target = 100` lands at
900, overshooting far past the target, so convergence is neither
monotone nor overshoot-free. -/
theorem C7_counterexample :
    NoiseMeterA.animateToNewLevel 100 0 = 900 ∧
    (100 : ℚ) < NoiseMeterA.animateToNewLevel 100 0 := by
  have h : NoiseMeterA.animateToNewLevel 100 0 = 900 := by
    norm_num [NoiseMeterA.animateToNewLevel, abs_of_nonpos]
  exact ⟨h, by rw [h]; norm_num⟩

/-- Claim C7 (amended): the direction-dependent smoothing variant
(`NoiseMeter.tsx` lines 254-264) does satisfy the contract for
`current = 0, target = 100`: each step strictly increases the value
without ever exceeding the target, the iteration reaches exactly 100
after 7 ticks (the residual below `snapEpsilon = 0.5` is snapped), and
the step is idempotent once snapped.  The other variant (lines 21-33)
overshoots, as the counterexample shows. -/
theorem C7_smoothing_amended :
    ∀ c : ℚ, 0 ≤ c → c < 100 →
      (c < NoiseMeterB.animateToNewLevel 100 c ∧
        NoiseMeterB.animateToNewLevel 100 c ≤ 100) ∧
      (fun x => NoiseMeterB.animateToNewLevel 100 x)^[7] 0 = 100 ∧
      NoiseMeterB.animateToNewLevel 100 100 = 100 := by
  intro c h0 h1
  refine ⟨?_, ?_, by norm_num [NoiseMeterB.animateToNewLevel]⟩
  · unfold NoiseMeterB.animateToNewLevel
    rw [show |c - 100| = 100 - c by rw [abs_of_nonpos (by linarith)]; ring]
    split_ifs with hsnap hc hfar <;> constructor <;> nlinarith
  · have s1 : NoiseMeterB.animateToNewLevel 100 0 = 75 := by
      norm_num [NoiseMeterB.animateToNewLevel, abs_of_nonpos, abs_of_nonneg]
    have s2 : NoiseMeterB.animateToNewLevel 100 75 = 375/4 := by
      norm_num [NoiseMeterB.animateToNewLevel, abs_of_nonpos, abs_of_nonneg]
    have s3 : NoiseMeterB.animateToNewLevel 100 (375/4) = 775/8 := by
      norm_num [NoiseMeterB.animateToNewLevel, abs_of_nonpos, abs_of_nonneg]
    have s4 : NoiseMeterB.animateToNewLevel 100 (775/8) = 1575/16 := by
      norm_num [NoiseMeterB.animateToNewLevel, abs_of_nonpos, abs_of_nonneg]
    have s5 : NoiseMeterB.animateToNewLevel 100 (1575/16) = 3175/32 := by
      norm_num [NoiseMeterB.animateToNewLevel, abs_of_nonpos, abs_of_nonneg]
    have s6 : NoiseMeterB.animateToNewLevel 100 (3175/32) = 6375/64 := by
      norm_num [NoiseMeterB.animateToNewLevel, abs_of_nonpos, abs_of_nonneg]
    have s7 : NoiseMeterB.animateToNewLevel 100 (6375/64) = 100 := by
      norm_num [NoiseMeterB.animateToNewLevel, abs_of_nonpos, abs_of_nonneg]
    simp only [Function.iterate_succ_apply', Function.iterate_zero_apply]
    rw [s1, s2, s3, s4, s5, s6, s7]

/-- Witness for the amended C7 at `current = 50`. -/
theorem C7_witness :
    ((0:ℚ) ≤ 50 ∧ (50:ℚ) < 100) ∧
    (((50:ℚ) < NoiseMeterB.animateToNewLevel 100 50 ∧
        NoiseMeterB.animateToNewLevel 100 50 ≤ 100) ∧
      (fun x => NoiseMeterB.animateToNewLevel 100 x)^[7] 0 = 100 ∧
      NoiseMeterB.animateToNewLevel 100 100 = 100) :=
  ⟨⟨by norm_num, by norm_num⟩,
    C7_smoothing_amended 50 (by norm_num) (by norm_num)⟩

/-- Claim C3 is violated by the code (code bug): neither
`startListening` variant checks `isListening`, so a second `start()`
without an intervening `stop()` acquires a SECOND stream and schedules
a SECOND frame loop.  Worse, `stopListening` afterwards only stops the
stream held in `streamRef` (the second one) and cancels only the frame
id held in `animationFrameRef`, so the first stream's tracks stay live
and the first callback stays scheduled. -/
theorem C3_double_start_duplicate_acquisition :
    (HookPart002.startListening (HookPart002.startListening
      HookPart002.initState)).streams = [true, true] ∧
    (HookPart002.startListening (HookPart002.startListening
      HookPart002.initState)).pendingFrames = [0, 1] ∧
    (HookPart002.stopListening (HookPart002.startListening
      (HookPart002.startListening HookPart002.initState))).streams = [true, false] ∧
    (HookPart002.stopListening (HookPart002.startListening
      (HookPart002.startListening HookPart002.initState))).pendingFrames = [0] :=
  ⟨rfl, rfl, rfl, rfl⟩

/-- Counterexample for C4: the claim's cited first `useAudioLevel.tsx`
variant (stopListening at lines 77-90) falsifies it.  Starting from the
initial state and then stopping from the Active state does reset the
level to 0 and clear `isListening`, but the acquired stream's tracks
are STILL LIVE afterwards: lines 77-90 contain no `track.stop()` (the
hook never even stored the stream) and no `cancelAnimationFrame`, so
"all underlying stream tracks are stopped" fails there. -/
theorem C4_counterexample :
    (HookV1.startListening HookV1.initState).isListening = true ∧
    (HookV1.startListening HookV1.initState).streams = [true] ∧
    (HookV1.stopListening (HookV1.startListening
      HookV1.initState)).isListening = false ∧
    (HookV1.stopListening (HookV1.startListening
      HookV1.initState)).audioLevel = 0 ∧
    (HookV1.stopListening (HookV1.startListening
      HookV1.initState)).streams = [true] :=
  ⟨rfl, rfl, rfl, rfl, rfl⟩

/-- Claim C4 (amended): in the ref-based `useAudioLevel.tsx` variant
(stopListening at lines 213-244), stopping from an Active state (the
only pending frame is the one held in `animationFrameRef`, and the only
live stream is the one held in `streamRef`) leaves no scheduled frame
callback, stops all stream tracks, resets the level to 0 and clears
`isListening`.  The first variant (lines 77-90) resets the level and
the flag but stops no tracks and cancels nothing, as the counterexample
shows. -/
theorem C4_stop_cancels_and_releases :
    ∀ s : HookRef.State,
      s.pendingFrames = s.animationFrameRef.toList →
      (∀ i, i < s.streams.length → s.streams.getD i false = true →
        s.streamRef = some i) →
      s.isListening = true →
      (HookRef.stopListening s).pendingFrames = [] ∧
      (∀ i, i < (HookRef.stopListening s).streams.length →
        (HookRef.stopListening s).streams.getD i false = false) ∧
      (HookRef.stopListening s).audioLevel = 0 ∧
      (HookRef.stopListening s).isListening = false := by
  intro s hp hs _
  refine ⟨?_, ?_, rfl, rfl⟩
  · show (match s.animationFrameRef with
      | some fid => s.pendingFrames.erase fid
      | none => s.pendingFrames) = []
    rw [hp]
    cases hf : s.animationFrameRef <;> simp [Option.toList]
  · intro i hi
    have hlen : (HookRef.stopListening s).streams.length = s.streams.length := by
      show (match s.streamRef with
        | some j => s.streams.set j false
        | none => s.streams).length = s.streams.length
      cases s.streamRef <;> simp [List.length_set]
    have hi' : i < s.streams.length := by rw [← hlen]; exact hi
    cases hr : s.streamRef with
    | none =>
      have hgoal : (HookRef.stopListening s).streams = s.streams := by
        show (match s.streamRef with
          | some j => s.streams.set j false
          | none => s.streams) = s.streams
        rw [hr]
      rw [hgoal]
      cases hgd : s.streams.getD i false with
      | false => rfl
      | true =>
        have hsc := hs i hi' hgd
        rw [hr] at hsc
        exact Option.noConfusion hsc
    | some j =>
      have hgoal : (HookRef.stopListening s).streams = s.streams.set j false := by
        show (match s.streamRef with
          | some j => s.streams.set j false
          | none => s.streams) = s.streams.set j false
        rw [hr]
      rw [hgoal]
      cases hgd : (s.streams.set j false).getD i false with
      | false => rfl
      | true =>
        obtain ⟨h1, h2⟩ := getD_set_false s.streams i j hgd
        have hsc := hs i hi' h1
        rw [hr] at hsc
        exact absurd (Option.some_injective _ hsc.symm) h2

/-- Witness for C4: the state reached by one successful `start()` from
the initial state satisfies the Active-state hypotheses, and stopping
from it cancels the schedule, kills the stream, and resets level and
flag. -/
theorem C4_witness :
    ((HookRef.startListening HookRef.initState).pendingFrames =
        (HookRef.startListening HookRef.initState).animationFrameRef.toList ∧
      (∀ i, i < (HookRef.startListening HookRef.initState).streams.length →
        (HookRef.startListening HookRef.initState).streams.getD i false = true →
        (HookRef.startListening HookRef.initState).streamRef = some i) ∧
      (HookRef.startListening HookRef.initState).isListening = true) ∧
    ((HookRef.stopListening (HookRef.startListening
        HookRef.initState)).pendingFrames = [] ∧
      (∀ i, i < (HookRef.stopListening (HookRef.startListening
          HookRef.initState)).streams.length →
        (HookRef.stopListening (HookRef.startListening
          HookRef.initState)).streams.getD i false = false) ∧
      (HookRef.stopListening (HookRef.startListening
        HookRef.initState)).audioLevel = 0 ∧
      (HookRef.stopListening (HookRef.startListening
        HookRef.initState)).isListening = false) :=
  ⟨⟨rfl, by decide, rfl⟩,
    C4_stop_cancels_and_releases (HookRef.startListening HookRef.initState)
      rfl (by decide) rfl⟩

/-- Claim C5: the estimator endpoint postconditions.  An all-midpoint
(128) time-domain buffer with an all-zero frequency buffer yields raw
level 0, and an all-zero (maximally deviated) time-domain buffer with
an all-255 frequency buffer yields raw level 100 after the clamp, in
both the part_002 estimator (fftSize 1024, 512 bins) and the part_004
estimator (fftSize 256, 128 bins), for every sample rate. -/
theorem C5_estimator_endpoints :
    ∀ sampleRate : ℝ,
      Part002.updateAudioLevel sampleRate (List.replicate 1024 128)
        (List.replicate 512 0) = 0 ∧
      Part002.updateAudioLevel sampleRate (List.replicate 1024 0)
        (List.replicate 512 255) = 100 ∧
      Part004.updateAudioLevel (List.replicate 256 128)
        (List.replicate 128 0) = 0 ∧
      Part004.updateAudioLevel (List.replicate 256 0)
        (List.replicate 128 255) = 100 := by
  intro sampleRate
  refine ⟨?_, ?_, ?_, ?_⟩
  · unfold Part002.updateAudioLevel
    rw [rmsDeviation_allMid 1024 (by norm_num),
      weightedFreqAverage_replicate 2 sampleRate (by norm_num) 512 0 (by norm_num),
      maxFrequency_replicate 512 0 (by norm_num)]
    unfold Part002.normalizedVolume Part002.combinedVolume Part002.sensitivityMultiplier
    norm_num
  · unfold Part002.updateAudioLevel
    rw [rmsDeviation_allZero 1024 (by norm_num),
      weightedFreqAverage_replicate 2 sampleRate (by norm_num) 512 255 (by norm_num),
      maxFrequency_replicate 512 255 (by norm_num)]
    unfold Part002.normalizedVolume Part002.combinedVolume Part002.sensitivityMultiplier
    norm_num [min_def, max_def]
  · unfold Part004.updateAudioLevel
    rw [rmsDeviation_allMid 256 (by norm_num),
      plainFreqAverage_replicate 128 0 (by norm_num),
      maxFrequency_replicate 128 0 (by norm_num)]
    unfold Part004.adjustedVolume Part004.combinedVolume Part004.sensitivityMultiplier
    norm_num
  · unfold Part004.updateAudioLevel
    rw [rmsDeviation_allZero 256 (by norm_num),
      plainFreqAverage_replicate 128 255 (by norm_num),
      maxFrequency_replicate 128 255 (by norm_num)]
    unfold Part004.adjustedVolume Part004.combinedVolume Part004.sensitivityMultiplier
    norm_num [min_def, max_def]

/-- Witness for C5 at sample rate 44100. -/
theorem C5_witness :
    Part002.updateAudioLevel 44100 (List.replicate 1024 128)
        (List.replicate 512 0) = 0 ∧
      Part002.updateAudioLevel 44100 (List.replicate 1024 0)
        (List.replicate 512 255) = 100 ∧
      Part004.updateAudioLevel (List.replicate 256 128)
        (List.replicate 128 0) = 0 ∧
      Part004.updateAudioLevel (List.replicate 256 0)
        (List.replicate 128 255) = 100 :=
  C5_estimator_endpoints 44100

/-- Counterexample for C6: in the first part_003 estimator variant the
peak frequency-bin value does NOT contribute to the combined metric.
The frames `[1, 1]` and `[0, 2]` have the same frequency average but
different peaks (1 vs 2), yet the published level is identical. -/
theorem C6_counterexample :
    Part003A.updateAudioLevel (List.replicate 4 128) [1, 1] =
      Part003A.updateAudioLevel (List.replicate 4 128) [0, 2] ∧
    maxFrequency [1, 1] ≠ maxFrequency [0, 2] := by
  constructor
  · unfold Part003A.updateAudioLevel
    rw [rmsDeviation_allMid 4 (by norm_num)]
    have h1 : plainFreqAverage [1, 1] = 1 := by
      unfold plainFreqAverage
      norm_num [Finset.sum_range_succ, List.getD_cons_zero, List.getD_cons_succ]
    have h2 : plainFreqAverage [0, 2] = 1 := by
      unfold plainFreqAverage
      norm_num [Finset.sum_range_succ, List.getD_cons_zero, List.getD_cons_succ]
    rw [h1, h2]
  · decide

/-- Claim C6 (amended): the combined metric is a fixed convex weighting
with weights summing to 1 in every estimator variant, and all three
signals (RMS, frequency average, peak) carry strictly positive weight
in part_002 (0.6/0.3/0.1), part_003's enhanced variant (0.4/0.5/0.1)
and part_004 (0.5/0.3/0.2); but part_003's first variant combines only
RMS (0.7) and frequency average (0.3) — the peak does not contribute
there. -/
theorem C6_weights_amended :
    (∃ w1 w2 w3 : ℝ, w1 + w2 + w3 = 1 ∧ 0 < w1 ∧ 0 < w2 ∧ 0 < w3 ∧
      ∀ r a p : ℝ, Part002.combinedVolume r a p = w1 * r + w2 * a + w3 * p) ∧
    (∃ w1 w2 w3 : ℝ, w1 + w2 + w3 = 1 ∧ 0 < w1 ∧ 0 < w2 ∧ 0 < w3 ∧
      ∀ r a p : ℝ, Part003B.combinedVolume r a p = w1 * r + w2 * a + w3 * p) ∧
    (∃ w1 w2 w3 : ℝ, w1 + w2 + w3 = 1 ∧ 0 < w1 ∧ 0 < w2 ∧ 0 < w3 ∧
      ∀ r a p : ℝ, Part004.combinedVolume r a p = w1 * r + w2 * a + w3 * p) ∧
    (∃ w1 w2 : ℝ, w1 + w2 = 1 ∧ 0 < w1 ∧ 0 < w2 ∧
      ∀ r a : ℝ, Part003A.combinedVolume r a = w1 * r + w2 * a) := by
  refine ⟨⟨0.6, 0.3, 0.1, by norm_num, by norm_num, by norm_num, by norm_num,
      fun r a p => by unfold Part002.combinedVolume; ring⟩,
    ⟨0.4, 0.5, 0.1, by norm_num, by norm_num, by norm_num, by norm_num,
      fun r a p => by unfold Part003B.combinedVolume; ring⟩,
    ⟨0.5, 0.3, 0.2, by norm_num, by norm_num, by norm_num, by norm_num,
      fun r a p => by unfold Part004.combinedVolume; ring⟩,
    ⟨0.7, 0.3, by norm_num, by norm_num, by norm_num,
      fun r a => by unfold Part003A.combinedVolume; ring⟩⟩

/-- Counterexample for C8: the second part_003 variant requests the
microphone with ALL capture-processing options enabled
(`echoCancellation: true, noiseSuppression: true, autoGainControl: true`,
part_003 lines 332-338), contradicting the claim that every
acquisition disables them. -/
theorem C8_counterexample :
    Part003B.audioConstraints.echoCancellation = true ∧
    Part003B.audioConstraints.noiseSuppression = true ∧
    Part003B.audioConstraints.autoGainControl = true :=
  ⟨rfl, rfl, rfl⟩

/-- Claim C8 (amended): the part_002, first part_003, and part_004
variants request the microphone with all three capture-processing
options disabled; the second part_003 variant requests all three
enabled; and both `useAudioLevel.tsx` variants pass `{ audio: true }`
with no processing constraints at all. -/
theorem C8_constraints_amended :
    Part002.audioConstraints =
      ⟨false, false, false⟩ ∧
    Part003A.audioConstraints =
      ⟨false, false, false⟩ ∧
    Part004.audioConstraints =
      ⟨false, false, false⟩ ∧
    Part003B.audioConstraints =
      ⟨true, true, true⟩ ∧
    HookV1.audioConstraints = none ∧
    HookRef.audioConstraints = none :=
  ⟨rfl, rfl, rfl, rfl, rfl, rfl⟩

/-- Claim C9: `stop()` when never started is a no-op — on the initial
state it changes nothing (no stream or frame to release, level stays 0,
`isListening` stays false) — and release is idempotent: a second
`stop()` right after a first one changes nothing, in both the part_002
hook and the first `useAudioLevel.tsx` variant (whose `stopListening`
is guarded by `if (microphone && audioContext)`). -/
theorem C9_stop_noop_idempotent :
    HookPart002.stopListening HookPart002.initState = HookPart002.initState ∧
    (∀ s, HookPart002.stopListening (HookPart002.stopListening s) =
      HookPart002.stopListening s) ∧
    HookV1.stopListening HookV1.initState = HookV1.initState ∧
    (∀ s, HookV1.stopListening (HookV1.stopListening s) =
      HookV1.stopListening s) := by
  refine ⟨rfl, ?_, rfl, ?_⟩
  · intro s
    obtain ⟨lvl, lis, perm, ctx, an, mic, strs, sref, aref, pend, nid⟩ := s
    cases ctx <;> rfl
  · intro s
    obtain ⟨lvl, lis, ctx, an, mic, strs⟩ := s
    cases mic <;> cases ctx <;> rfl

/-- Claim C10: the published audio level always lies in `[0, 100]`.
It starts at 0 in every hook variant, every per-frame publication
formula clamps into `[0, 100]` (including the part_003 variant that
multiplies sub-5 values by 1.5 AFTER the clamp, which still stays in
range), and `stopListening` resets it to 0. -/
theorem C10_published_level_bounds :
    (HookPart002.initState.audioLevel = 0 ∧ HookRef.initState.audioLevel = 0 ∧
      HookV1.initState.audioLevel = 0) ∧
    (∀ s, (HookPart002.stopListening s).audioLevel = 0) ∧
    (∀ s, (HookRef.stopListening s).audioLevel = 0) ∧
    (∀ c : ℝ, 0 ≤ Part002.normalizedVolume c ∧ Part002.normalizedVolume c ≤ 100) ∧
    (∀ c : ℝ, 0 ≤ Part003A.adjustedVolume c ∧ Part003A.adjustedVolume c ≤ 100) ∧
    (∀ c : ℝ, 0 ≤ Part004.adjustedVolume c ∧ Part004.adjustedVolume c ≤ 100) ∧
    (∀ c : ℝ, 0 ≤ Part003B.finalVolume (Part003B.normalizedVolume c) ∧
      Part003B.finalVolume (Part003B.normalizedVolume c) ≤ 100) ∧
    (∀ a : ℝ, 0 ≤ HookV1.normalizedLevel a ∧ HookV1.normalizedLevel a ≤ 100) ∧
    (∀ a : ℝ, 0 ≤ HookRef.normalizedLevel a ∧ HookRef.normalizedLevel a ≤ 100) := by
  refine ⟨⟨rfl, rfl, rfl⟩, fun s => rfl, fun s => rfl,
    fun c => clamp_bounds (c * (Part002.sensitivityMultiplier / 128)),
    fun c => clamp_bounds (c * Part003A.sensitivityMultiplier),
    fun c => clamp_bounds (c * Part004.sensitivityMultiplier),
    ?_,
    fun a => clamp_bounds (((round (a / 255 * 100) : ℤ) : ℝ)),
    fun a => clamp_bounds (((round (Real.sqrt (a / 255) * 100) : ℤ) : ℝ))⟩
  intro c
  have h := clamp_bounds (c * (Part003B.sensitivityMultiplier / 128))
  have hn : Part003B.normalizedVolume c =
      min 100 (max 0 (c * (Part003B.sensitivityMultiplier / 128))) := rfl
  unfold Part003B.finalVolume
  rw [hn]
  split_ifs with hb
  · constructor <;> nlinarith [h.1, h.2, hb.1, hb.2]
  · exact h
